import Mathlib

/-!
Verification of the email discovery and verification pipeline of the
b2b-scraper repository against its natural-language specification.

The development shallowly embeds the two modules the claims are about:

* `backend/execution/crawl_website_for_email.py` — address extraction from
  HTML (regex with de-obfuscation and a false-positive filter), website
  normalization, and the bounded contact-page crawl with `mailto:` mining.
* `execution/verify_email_smtp.py` — SMTP-probe based verification,
  pattern guessing, and the per-lead verification state machine.

Python strings are modelled as `String` (operated on through `List Char`
to keep every definition kernel-executable), Python `None`-able values as
`Option`, raised exceptions as `Except`, and the network collaborators
(HTTP fetching, BeautifulSoup link listing, DNS MX resolution, the raw
SMTP session) as explicit function parameters.
-/

/-! ## Python string primitives (modelled on `List Char`) -/

/-- Models Python `pat in s` (substring containment). -/
def containsSubList (pat : List Char) : List Char → Bool
  | [] => pat.isPrefixOf []
  | c :: cs => pat.isPrefixOf (c :: cs) || containsSubList pat cs

/-- Substring test on `String`, models Python `pat in s`. -/
def strContainsSub (s pat : String) : Bool :=
  containsSubList pat.data s.data

/-- Models Python `s.startswith(p)`. -/
def startsWithStr (s p : String) : Bool :=
  p.data.isPrefixOf s.data

/-- Models Python `s.lower()` (inputs here are ASCII). -/
def lowerStr (s : String) : String :=
  String.mk (s.data.map Char.toLower)

/-- Models Python `s.strip()` (inputs here use ASCII whitespace). -/
def pyStrip (s : String) : String :=
  String.mk (((s.data.dropWhile Char.isWhitespace).reverse.dropWhile Char.isWhitespace).reverse)

/-- Fueled worker for `pyReplaceStr`; fuel `s.length` always suffices since
every step consumes at least one character. Models Python `str.replace`:
global, left-to-right, non-overlapping. -/
def pyReplaceGo (pat rep : List Char) : Nat → List Char → List Char
  | _, [] => []
  | 0, s => s
  | Nat.succ n, c :: cs =>
    if !pat.isEmpty && pat.isPrefixOf (c :: cs) then
      rep ++ pyReplaceGo pat rep n (cs.drop (pat.length - 1))
    else
      c :: pyReplaceGo pat rep n cs

/-- Models Python `s.replace(pat, rep)`. -/
def pyReplaceStr (s pat rep : String) : String :=
  String.mk (pyReplaceGo pat.data rep.data s.data.length s.data)

/-- Models Python `s.split(sep)` for a single-character separator:
splits on every occurrence, keeping empty pieces. -/
def splitAllOn (sep : Char) : List Char → List (List Char)
  | [] => [[]]
  | c :: cs =>
    let r := splitAllOn sep cs
    if c = sep then [] :: r
    else
      match r with
      | h :: t => (c :: h) :: t
      | [] => [[c]]

/-- Element at index 1 of a list, `none` when the list is too short.
Models Python `lst[1]` with `none` standing for the raised `IndexError`. -/
def idx1? : List (List Char) → Option (List Char)
  | _ :: x :: _ => some x
  | _ => none

/-- Worker for `pySplitWs`; `cur` holds the current token reversed. -/
def pySplitWsGo (cur : List Char) : List Char → List (List Char)
  | [] => if cur.isEmpty then [] else [cur.reverse]
  | c :: cs =>
    if c.isWhitespace then
      if cur.isEmpty then pySplitWsGo [] cs
      else cur.reverse :: pySplitWsGo [] cs
    else pySplitWsGo (c :: cur) cs

/-- Models Python `s.split()` with no argument: split on whitespace runs,
dropping empty tokens. -/
def pySplitWs (cs : List Char) : List (List Char) :=
  pySplitWsGo [] cs

/-! ## urllib.parse.urlparse (the fields the source reads)

Models CPython `urlparse` restricted to the `scheme`, `netloc` and `path`
fields, for URLs without `;` parameters: the scheme is the text before the
first `:` when it is a well-formed scheme token, the netloc is present only
after a `//`, and fragment/query suffixes are cut from the path. -/

/-- Characters CPython accepts inside a URL scheme. -/
def isSchemeChar (c : Char) : Bool :=
  c.isAlpha || c.isDigit || c = '+' || c = '-' || c = '.'

/-- Models `urlparse(url)` returning `(scheme, netloc, path)`. -/
def urlparse3 (url : String) : String × String × String :=
  let cs := url.data
  let pre := cs.takeWhile (fun c => c ≠ ':')
  let hasScheme := pre.length < cs.length && !pre.isEmpty &&
      (match pre.head? with
       | some c0 => c0.isAlpha
       | none => false) && pre.all isSchemeChar
  let scheme := if hasScheme then pre.map Char.toLower else []
  let rest := if hasScheme then cs.drop (pre.length + 1) else cs
  let netloc :=
    match rest with
    | '/' :: '/' :: r => r.takeWhile (fun c => c ≠ '/' && c ≠ '?' && c ≠ '#')
    | _ => []
  let rest2 :=
    match rest with
    | '/' :: '/' :: r => r.dropWhile (fun c => c ≠ '/' && c ≠ '?' && c ≠ '#')
    | _ => rest
  let path := (rest2.takeWhile (fun c => c ≠ '#')).takeWhile (fun c => c ≠ '?')
  (String.mk scheme, String.mk netloc, String.mk path)

/-! ## The compiled email regex

Model of the Python pattern
`\b[A-Za-z0-9._%+-]+@[A-Za-z0-9.-]+\.[A-Z|a-z]{2,}\b`
(note the literal `|` inside the TLD character class) with `re` semantics:
greedy quantifiers with backtracking, `\b` word boundaries, `findall`
scanning left to right for non-overlapping matches, and `match` anchored
at the start of the string only.

The local-part `+` needs no backtracking search: `@` is not in the
local-part class, so only the maximal run can be followed by `@`. The same
holds for the domain run as a whole, because `.` belongs to the domain
class; backtracking is only needed for the position of the final `\.` and
for the length of the TLD run, which the two search functions below try
longest-first exactly as the backtracking engine does. -/

/-- Word characters for `\b` (Python `\w` over ASCII input). -/
def isWordChar (c : Char) : Bool :=
  c.isAlpha || c.isDigit || c = '_'

/-- The class `[A-Za-z0-9._%+-]`. -/
def isLocalChar (c : Char) : Bool :=
  c.isAlpha || c.isDigit || c = '.' || c = '_' || c = '%' || c = '+' || c = '-'

/-- The class `[A-Za-z0-9.-]`. -/
def isDomainChar (c : Char) : Bool :=
  c.isAlpha || c.isDigit || c = '.' || c = '-'

/-- The class `[A-Z|a-z]` — letters and the literal `|`. -/
def isTldChar (c : Char) : Bool :=
  c.isAlpha || c = '|'

/-- Wordness of an optional character; absent (string edge) counts non-word. -/
def optWord : Option Char → Bool
  | none => false
  | some c => isWordChar c

/-- A `\b` boundary holds between two (optional) characters iff their
wordness differs. -/
def boundaryAt (prev next : Option Char) : Bool :=
  optWord prev != optWord next

/-- Splits a list into its maximal prefix run of characters satisfying `p`
and the remainder. -/
def splitRun (p : Char → Bool) : List Char → List Char × List Char
  | [] => ([], [])
  | c :: cs =>
    if p c then
      let r := splitRun p cs
      (c :: r.1, r.2)
    else ([], c :: cs)

/-- Backtracking search for `[A-Z|a-z]{2,}\b`: given the maximal TLD run
`trun` and the text after it, try consuming `m` characters, longest first,
stopping at the first `m ≥ 2` whose final `\b` holds. Returns the consumed
characters and the remaining text. -/
def tldSearch (trun rest : List Char) : Nat → Option (List Char × List Char)
  | 0 => none
  | 1 => none
  | Nat.succ (Nat.succ m) =>
    let k := m + 2
    let taken := trun.take k
    let after := trun.drop k ++ rest
    if k ≤ trun.length && boundaryAt taken.getLast? after.head? then
      some (taken, after)
    else
      tldSearch trun rest (Nat.succ m)

/-- Backtracking search for `[A-Za-z0-9.-]+\.[A-Z|a-z]{2,}\b`: given the
maximal domain run `dom` and the text after it, try a domain-part length
`k`, longest first (the counter starts at `dom.length - 1`), requiring a
literal `.` right after it, then run `tldSearch` on what follows. Returns
`(domain part, TLD part, remaining text)`. -/
def domainSearch (dom rest3 : List Char) : Nat → Option (List Char × List Char × List Char)
  | 0 => none
  | Nat.succ kk =>
    let k := Nat.succ kk
    match dom.drop k with
    | '.' :: afterDot =>
      let tsrc := afterDot ++ rest3
      let tr := splitRun isTldChar tsrc
      match tldSearch tr.1 tr.2 tr.1.length with
      | some (taken, remaining) => some (dom.take k, taken, remaining)
      | none => domainSearch dom rest3 kk
    | _ => domainSearch dom rest3 kk

/-- Attempts to match the whole email pattern at the start of `s`, with
`prev` the character preceding `s` in the subject (for `\b`). Returns the
matched characters and the remainder of the subject on success. -/
def tryMatchAt (prev : Option Char) (s : List Char) : Option (List Char × List Char) :=
  match s.head? with
  | none => none
  | some c =>
    if !boundaryAt prev (some c) then none
    else
      let lr := splitRun isLocalChar s
      if lr.1.isEmpty then none
      else
        match lr.2 with
        | '@' :: rest2 =>
          let dr := splitRun isDomainChar rest2
          match domainSearch dr.1 dr.2 (dr.1.length - 1) with
          | some (dPart, tld, remaining) =>
            some (lr.1 ++ '@' :: (dPart ++ '.' :: tld), remaining)
          | none => none
        | _ => none

/-- Fueled scan for `findall`: try a match at every position, left to
right; on success continue after the match (non-overlapping), on failure
advance one character. Fuel `s.length` always suffices because every step
consumes at least one character. -/
def findallGo : Nat → Option Char → List Char → List (List Char)
  | 0, _, _ => []
  | Nat.succ _, _, [] => []
  | Nat.succ n, prev, c :: cs =>
    match tryMatchAt prev (c :: cs) with
    | some (m, rest) => m :: findallGo n m.getLast? rest
    | none => findallGo n (some c) cs

/-- Models `EMAIL_PATTERN.findall(s)`. -/
def emailFindall (s : String) : List String :=
  (findallGo s.data.length none s.data).map String.mk

/-- Models the truthiness of `EMAIL_PATTERN.match(s)`: a match anchored at
the start of `s` (a prefix match, not necessarily the whole string). -/
def emailPatternMatch (s : String) : Bool :=
  (tryMatchAt none s.data).isSome

/-! ## crawl_website_for_email.py -/

/-- The image-file and placeholder substrings of the first filter in
`extract_emails_from_html`. -/
def imageAndPlaceholderTokens : List String :=
  [".png", ".jpg", ".gif", ".svg", "example.com", "email.com", "domain.com",
   "yoursite", "yourdomain"]

/-- The CMS/system substrings of the second filter in
`extract_emails_from_html`. -/
def systemEmailTokens : List String :=
  ["wordpress", "woocommerce", "admin@localhost"]

/-- True when the source's filter loop skips `email`: its lowercase form
contains an image extension, a placeholder domain, or a CMS/system token. -/
def isFalsePositiveEmail (email : String) : Bool :=
  let el := lowerStr email
  imageAndPlaceholderTokens.any (fun x => strContainsSub el x) ||
    systemEmailTokens.any (fun x => strContainsSub el x)

/-- The de-obfuscation substitutions applied before matching
(`[at]`, `[dot]`, ` at `, ` dot `, `(at)`, `(dot)`), in source order. -/
def deobfuscate (html : String) : String :=
  pyReplaceStr (pyReplaceStr (pyReplaceStr (pyReplaceStr (pyReplaceStr
    (pyReplaceStr html "[at]" "@") "[dot]" ".") " at " "@") " dot " ".")
    "(at)" "@") "(dot)" "."

/-- Models `extract_emails_from_html`: de-obfuscate, collect the set of
regex matches, and drop false positives. The Python `set` is modelled as a
deduplicated list; claims about it are stated via membership. -/
def extract_emails_from_html (html : String) : List String :=
  ((emailFindall (deobfuscate html)).dedup).filter
    (fun email => !isFalsePositiveEmail email)

/-- The fixed contact-page path list `CONTACT_PATHS`. -/
def CONTACT_PATHS : List String :=
  ["/contact", "/contact-us", "/contactus", "/about", "/about-us",
   "/aboutus", "/team", "/our-team", "/staff", "/get-in-touch"]

/-- The non-empty branch of `normalize_website`: strip whitespace, strip
trailing slashes, prefix `https://` when no scheme is present. -/
def normalizeNonempty (website : String) : String :=
  let w := pyStrip website
  let w2 := String.mk ((w.data.reverse.dropWhile (fun c => c = '/')).reverse)
  if startsWithStr w2 "http://" || startsWithStr w2 "https://" then w2
  else "https://" ++ w2

/-- Models `normalize_website`; `none` models the Python `None` returned
for a falsy input. -/
def normalize_website (website : String) : Option String :=
  if website = "" then none else some (normalizeNonempty website)

/-- Models `get_base_url`: `f"{parsed.scheme}://{parsed.netloc}"`. -/
def get_base_url (url : String) : String :=
  let p := urlparse3 url
  p.1 ++ "://" ++ p.2.1

/-- Models `urljoin(base, path)` for the use in this file: the base is an
origin (`scheme://netloc`, no path) and each `CONTACT_PATHS` entry is
root-relative, so the join is concatenation. -/
def urljoinRooted (base path : String) : String :=
  base ++ path

/-- The `pages_to_check` list built by `crawl_website_for_emails`:
the normalized homepage followed by the ten contact paths resolved against
the base origin; empty for a falsy website. -/
def pages_to_check (website : String) : List String :=
  match normalize_website website with
  | none => []
  | some w => w :: CONTACT_PATHS.map (fun p => urljoinRooted (get_base_url w) p)

/-- The per-link `mailto:` handling of the crawl loop: for an `href`
starting with `mailto:`, strip the scheme (Python `replace`, hence every
occurrence), cut at the first `?`, strip whitespace, and keep the result
iff `EMAIL_PATTERN.match` succeeds on it. -/
def mailtoCandidate (href : String) : Option String :=
  if startsWithStr href "mailto:" then
    let email := pyStrip (String.mk ((pyReplaceStr href "mailto:" "").data.takeWhile (fun c => c ≠ '?')))
    if emailPatternMatch email then some email else none
  else none

/-- The addresses the crawl loop harvests from the `mailto:` links of one
page, given the `href` values of its anchor tags (BeautifulSoup, an
external collaborator, is modelled by passing those values in). -/
def mailtoEmailsFromHrefs (hrefs : List String) : List String :=
  hrefs.filterMap mailtoCandidate

/-- One iteration of the crawl loop over `pages_to_check`: fetch the page;
when the body is non-empty, merge the extractor's finds and the harvested
`mailto:` addresses into the running set. The politeness sleep and the
blanket `except: continue` have no effect on the accumulated set. -/
def crawlStep (fetch : String → String) (hrefsOf : String → List String)
    (emails : List String) (page : String) : List String :=
  let html := fetch page
  if html ≠ "" then
    emails ++ extract_emails_from_html html ++ mailtoEmailsFromHrefs (hrefsOf html)
  else emails

/-- Models `crawl_website_for_emails`, parametrized by the page fetcher
(`fetch_page`, which returns `""` on any failure) and by the collaborator
listing the `href` values of a page's anchor tags. The Python `set` is
modelled as a deduplicated list. -/
def crawl_website_for_emails (fetch : String → String)
    (hrefsOf : String → List String) (website : String) : List String :=
  ((pages_to_check website).foldl (crawlStep fetch hrefsOf) []).dedup

/-! ## verify_email_smtp.py -/

/-- The result dictionary built by `verify_email_smtp`. `valid` is the
Python tri-state `False` / `True` / `None`, modelled as `Option Bool` with
`none` for `None` (unknown); note its default is `some false`. -/
structure SmtpResult where
  email : String
  valid : Option Bool
  catch_all : Bool
  error : Option String
deriving DecidableEq

/-- A lead record as the verification stage reads and writes it. Python
dictionary keys that may be absent or `None` are modelled as `Option`
(the claims never distinguish an absent key from an explicit `None`). -/
structure Lead where
  name : Option String := none
  website : Option String := none
  emails_found : Option (List String) := none
  primary_email : Option String := none
  verified_email : Option String := none
  email_status : Option String := none
  verification_error : Option String := none
deriving DecidableEq

/-- The ordered template list `EMAIL_PATTERNS`. -/
def EMAIL_PATTERNS : List String :=
  ["info@{domain}", "contact@{domain}", "hello@{domain}", "sales@{domain}",
   "support@{domain}", "admin@{domain}", "office@{domain}",
   "{first}@{domain}", "{first}.{last}@{domain}", "{first}{last}@{domain}"]

/-- The opening brace character (written numerically to keep brace
characters out of the source text). -/
def braceOpen : Char := Char.ofNat 123

/-- The closing brace character. -/
def braceClose : Char := Char.ofNat 125

/-- Replacement value for one `str.format` field of the templates above.
Fields other than `domain` / `first` / `last` never occur in
`EMAIL_PATTERNS` (Python would raise `KeyError`). -/
def fmtField (domain first last : String) (nm : List Char) : List Char :=
  if nm = "domain".data then domain.data
  else if nm = "first".data then first.data
  else if nm = "last".data then last.data
  else []

/-- Fueled worker modelling `str.format` on the fixed templates: copy
characters, replacing each braced field by its value. Fuel `s.length`
suffices since every step consumes at least one character. -/
def fmtGo (domain first last : String) : Nat → List Char → List Char
  | 0, s => s
  | _, [] => []
  | Nat.succ n, c :: rest =>
    if c = braceOpen then
      let nm := rest.takeWhile (fun d => d ≠ braceClose)
      let rest2 := rest.dropWhile (fun d => d ≠ braceClose)
      fmtField domain first last nm ++
        (match rest2 with
         | d :: r => if d = braceClose then fmtGo domain first last n r else []
         | [] => [])
    else c :: fmtGo domain first last n rest

/-- Models `tmpl.format(domain=..., first=..., last=...)`. -/
def pyFormat (tmpl domain first last : String) : String :=
  String.mk (fmtGo domain first last tmpl.data.length tmpl.data)

/-- Models `get_domain_from_website`: `None` for a falsy website,
otherwise `netloc or path` of `urlparse`, with a leading `www.` stripped,
lowercased. -/
def get_domain_from_website (website : Option String) : Option String :=
  match website with
  | none => none
  | some w =>
    if w = "" then none
    else
      let p := urlparse3 w
      let domain := if p.2.1 ≠ "" then p.2.1 else p.2.2
      let domain2 := if startsWithStr domain "www." then String.mk (domain.data.drop 4) else domain
      some (lowerStr domain2)

/-- The MX host `verify_email_smtp` probes: the provided `mx_host` when it
is truthy, otherwise the first record returned by the DNS collaborator
`get_mx` (modelling `get_mx_records`, which returns `[]` on any failure);
`none` models the early `No MX records` return. -/
def resolveMx (get_mx : String → List String) (mx_host : Option String)
    (domain : String) : Option String :=
  match mx_host with
  | some h => if h = "" then (get_mx domain).head? else some h
  | none => (get_mx domain).head?

/-- Models `verify_email_smtp`, parametrized by the DNS collaborator and
by the SMTP session: `session mx email` returns the `RCPT TO` reply code,
or `Except.error msg` when any of the caught connection-level exceptions
is raised (all four `except` arms only record a message string). The
`email.split('@')[1]` indexing sits outside the `try` block, so its
`IndexError` propagates to the caller: `Except.error "list index out of
range"`. -/
def verify_email_smtp (get_mx : String → List String)
    (session : String → String → Except String Nat)
    (email : String) (mx_host : Option String) : Except String SmtpResult :=
  let result : SmtpResult :=
    { email := email, valid := some false, catch_all := false, error := none }
  match idx1? (splitAllOn '@' email.data) with
  | none => Except.error "list index out of range"
  | some domChars =>
    let domain := String.mk domChars
    match resolveMx get_mx mx_host domain with
    | none => Except.ok { result with error := some "No MX records" }
    | some mx =>
      match session mx email with
      | Except.ok code =>
        if code = 250 then Except.ok { result with valid := some true }
        else if code = 550 then Except.ok { result with valid := some false }
        else Except.ok { result with valid := none }
      | Except.error msg => Except.ok { result with error := some msg }

/-- Models `check_catch_all`: probe an almost-certainly-fake local part
and report `result.get('valid', False)` — the raw tri-state value, whose
truthiness the caller tests. -/
def check_catch_all (get_mx : String → List String)
    (session : String → String → Except String Nat)
    (domain : String) : Except String (Option Bool) :=
  match verify_email_smtp get_mx session ("definitely_fake_12345@" ++ domain) none with
  | Except.ok r => Except.ok r.valid
  | Except.error e => Except.error e

/-- Models `generate_email_guesses`: resolve the domain; take the business
name's first whitespace token as `first` and its last token as `last`
(empty when at most one token); format every template and keep the result
when it contains no left brace and contains an `@`. -/
def generate_email_guesses (lead : Lead) : List String :=
  match get_domain_from_website lead.website with
  | none => []
  | some domain =>
    if domain = "" then []
    else
      let name := lead.name.getD ""
      let name_parts := pySplitWs name.data
      let first :=
        match name_parts.head? with
        | some p => lowerStr (String.mk p)
        | none => ""
      let last :=
        if name_parts.length > 1 then lowerStr (String.mk (name_parts.getLastD []))
        else ""
      (EMAIL_PATTERNS.map (fun p => pyFormat p domain first last)).filter
        (fun e => !strContainsSub e "\x7b" && strContainsSub e "@")

/-- The guess-probing loop of `process_lead` (at most the first five
guesses are passed in): stop at the first guess whose probe is truthy
valid, else fall back to `info@domain` with status `guessed_unverified`.
A raised probe exception propagates. -/
def tryGuesses (get_mx : String → List String)
    (session : String → String → Except String Nat)
    (lead : Lead) (domain : String) : List String → Except String Lead
  | [] => Except.ok { lead with verified_email := some ("info@" ++ domain),
                                email_status := some "guessed_unverified" }
  | g :: gs =>
    match verify_email_smtp get_mx session g none with
    | Except.error e => Except.error e
    | Except.ok r =>
      if r.valid = some true then
        Except.ok { lead with verified_email := some g,
                              email_status := some "guessed_verified" }
      else tryGuesses get_mx session lead domain gs

/-- The branch of `process_lead` for a lead without a truthy
`primary_email`: domain resolution, catch-all check, guesses. -/
def process_lead_no_email (get_mx : String → List String)
    (session : String → String → Except String Nat)
    (lead : Lead) : Except String Lead :=
  let domain? := get_domain_from_website lead.website
  let domTruthy :=
    match domain? with
    | some d => d != ""
    | none => false
  if domTruthy then
    let domain := domain?.getD ""
    match check_catch_all get_mx session domain with
    | Except.error e => Except.error e
    | Except.ok v =>
      if v = some true then
        Except.ok { lead with verified_email := some ("info@" ++ domain),
                              email_status := some "catch_all" }
      else
        tryGuesses get_mx session lead domain ((generate_email_guesses lead).take 5)
  else
    Except.ok { lead with verified_email := none, email_status := some "no_website" }

/-- Models the verification worker `process_lead`: with a truthy
`primary_email`, probe it and classify `verified` / `unverified` /
`invalid` by the tri-state `valid`; otherwise fall through to the
no-email branch. Exceptions propagate as `Except.error`. -/
def process_lead (get_mx : String → List String)
    (session : String → String → Except String Nat)
    (lead : Lead) : Except String Lead :=
  match lead.primary_email with
  | none => process_lead_no_email get_mx session lead
  | some email =>
    if email = "" then process_lead_no_email get_mx session lead
    else
      match verify_email_smtp get_mx session email none with
      | Except.error e => Except.error e
      | Except.ok result =>
        if result.valid = some true then
          Except.ok { lead with verified_email := some email,
                                email_status := some "verified" }
        else if result.valid = none then
          Except.ok { lead with verified_email := some email,
                                email_status := some "unverified" }
        else
          Except.ok { lead with verified_email := none,
                                email_status := some "invalid" }

/-- Models `verify_all_leads`: every lead is processed; a worker's
uncaught exception is converted at the scheduler boundary into status
`error` with the message recorded. The thread pool's completion order is
unspecified in the source; the model processes the batch in order, and
claims about the batch are stated via membership and length. -/
def verify_all_leads (get_mx : String → List String)
    (session : String → String → Except String Nat)
    (leads : List Lead) : List Lead :=
  leads.map (fun lead =>
    match process_lead get_mx session lead with
    | Except.ok r => r
    | Except.error e =>
      { lead with verified_email := none, email_status := some "error",
                  verification_error := some e })

/-! ## Concrete scenario fixtures -/

/-- A lead whose business name has three tokens (claim C4). -/
def joeLead : Lead :=
  { name := some "Joe Smith Plumbing", website := some "https://example.org" }

/-- A lead whose business name has a single token (claim C6). -/
def bobLead : Lead :=
  { name := some "Bob", website := some "https://example.org" }

/-- A lead whose primary email contains no `@` (claim C10). -/
def badLead : Lead :=
  { primary_email := some "bobexample.com" }

/-- A page body with no address in its text (claim C5). -/
def mailtoJunkPage : String := "Contact page"

/-- A fetcher serving `mailtoJunkPage` on the homepage only (claim C5). -/
def fetch5 : String → String :=
  fun u => if u = "https://site5.example" then mailtoJunkPage else ""

/-- Anchor hrefs containing a mailto target with trailing junk (claim C5). -/
def hrefs5 : String → List String :=
  fun _ => ["mailto:foo@bar.com junk"]

/-- A page whose only address sits in a mailto link (claim C9). -/
def mailtoOnlyPage : String := "<a href=\"mailto:foo@example.com\">Email us</a>"

/-- A fetcher serving `mailtoOnlyPage` on the homepage only (claim C9). -/
def fetch9 : String → String :=
  fun u => if u = "https://site9.example" then mailtoOnlyPage else ""

/-- The anchor hrefs of `mailtoOnlyPage` (claim C9). -/
def hrefs9 : String → List String :=
  fun _ => ["mailto:foo@example.com"]

/-! ## Helper lemmas -/

/-- Splitting on a character that does not occur returns the whole list. -/
theorem splitAllOn_eq_single (sep : Char) (cs : List Char) (h : sep ∉ cs) :
    splitAllOn sep cs = [cs] := by
  induction cs with
  | nil => rfl
  | cons c cs ih =>
    have hc : ¬ (c = sep) := fun he => h (he ▸ List.mem_cons_self c cs)
    have hcs : sep ∉ cs := fun hm => h (List.mem_cons_of_mem c hm)
    simp [splitAllOn, if_neg hc, ih hcs]

/-- An email without an `@` makes `verify_email_smtp` raise the
`IndexError` of `email.split('@')[1]`. -/
theorem verify_raises_of_no_at (get_mx : String → List String)
    (session : String → String → Except String Nat) (e : String)
    (hat : '@' ∉ e.data) :
    verify_email_smtp get_mx session e none = Except.error "list index out of range" := by
  unfold verify_email_smtp
  rw [splitAllOn_eq_single '@' e.data hat]
  rfl

/-- With a fetcher that always fails (returns `""`), the crawl loop never
changes its accumulator. -/
theorem foldl_crawlStep_const (fetch : String → String)
    (hrefsOf : String → List String) (hf : ∀ u, fetch u = "") :
    ∀ (pages acc : List String), pages.foldl (crawlStep fetch hrefsOf) acc = acc := by
  intro pages
  induction pages with
  | nil => intro acc; rfl
  | cons p ps ih =>
    intro acc
    rw [List.foldl_cons]
    have hstep : crawlStep fetch hrefsOf acc p = acc := by
      simp [crawlStep, hf]
    rw [hstep]
    exact ih acc

/-- Every string `mailtoCandidate` emits passed the `EMAIL_PATTERN.match`
test. -/
theorem mailtoCandidate_matches (href e : String)
    (h : mailtoCandidate href = some e) : emailPatternMatch e = true := by
  simp only [mailtoCandidate] at h
  split at h
  · split at h
    · next h2 => injection h with h3; exact h3 ▸ h2
    · exact absurd h (by simp)
  · exact absurd h (by simp)

/-! ## Claims -/

/-- Claim C1, counterexample: the input `user[at]domain[dot]com` contains
the obfuscated substring, is de-obfuscated and matched, but the resulting
`user@domain.com` is then dropped by the placeholder-domain filter
(`domain.com` is in the filter list), so the extractor's set does not
contain it. -/
theorem c1_user_domain_counterexample :
    strContainsSub "user[at]domain[dot]com" "user[at]domain[dot]com" = true ∧
    "user@domain.com" ∉ extract_emails_from_html "user[at]domain[dot]com" := by
  decide

/-- Claim C1, amended: for every HTML input, `user@domain.com` is never in
the extractor's returned set — its lowercase form contains the filtered
placeholder substring `domain.com`, so the false-positive filter always
drops it (the de-obfuscation and regex match themselves do produce it). -/
theorem c1_user_domain_amended (html : String) :
    "user@domain.com" ∉ extract_emails_from_html html := by
  intro he
  unfold extract_emails_from_html at he
  have h2 := (List.mem_filter.mp he).2
  have h3 : isFalsePositiveEmail "user@domain.com" = true := by decide
  rw [h3] at h2
  simp at h2

/-- Claim C2: with a present (truthy) `primary_email` whose probe returns
tri-state `valid = False`, `process_lead` sets `email_status` to exactly
`invalid` and `verified_email` to `None`. -/
theorem c2_invalid_clears_verified (get_mx : String → List String)
    (session : String → String → Except String Nat) (lead : Lead)
    (email : String) (r : SmtpResult)
    (hp : lead.primary_email = some email) (hne : email ≠ "")
    (hv : verify_email_smtp get_mx session email none = Except.ok r)
    (hr : r.valid = some false) :
    process_lead get_mx session lead =
      Except.ok { lead with verified_email := none, email_status := some "invalid" } := by
  simp only [process_lead, hp]
  rw [if_neg hne, hv]
  simp [hr]

/-- Claim C2, witness: a concrete lead probed by a server answering 550. -/
theorem c2_invalid_clears_verified_witness :
    process_lead (fun _ => ["mx.host"]) (fun _ _ => Except.ok 550)
        { primary_email := some "a@b.c" } =
      Except.ok { primary_email := some "a@b.c", verified_email := none,
                  email_status := some "invalid" } :=
  c2_invalid_clears_verified _ _ _ "a@b.c"
    { email := "a@b.c", valid := some false, catch_all := false, error := none }
    rfl (by decide) (by rfl) rfl

/-- Claim C3, counterexample: a session raising a timeout yields a result
whose `error` is recorded but whose `valid` field is `False` (the dict's
default), not the unknown state `None` the claim asserts. -/
theorem c3_exception_caught_counterexample :
    verify_email_smtp (fun _ => ["mx.b.c"]) (fun _ _ => Except.error "Timeout")
        "a@b.c" none =
      Except.ok { email := "a@b.c", valid := some false, catch_all := false,
                  error := some "Timeout" } ∧
    ({ email := "a@b.c", valid := some false, catch_all := false,
       error := some "Timeout" } : SmtpResult).valid ≠ none :=
  ⟨by rfl, by decide⟩

/-- Claim C3, amended: for every input on which the SMTP session raises a
connection-level exception, `verify_email_smtp` catches it, records the
error string, does not raise, and leaves `valid` at its initialized
default `False` (not at an unknown state). -/
theorem c3_exception_caught_amended (get_mx : String → List String)
    (session : String → String → Except String Nat) (email : String)
    (mx_host : Option String) (d : List Char) (mx msg : String)
    (hd : idx1? (splitAllOn '@' email.data) = some d)
    (hmx : resolveMx get_mx mx_host (String.mk d) = some mx)
    (hs : session mx email = Except.error msg) :
    verify_email_smtp get_mx session email mx_host =
      Except.ok { email := email, valid := some false, catch_all := false,
                  error := some msg } := by
  simp only [verify_email_smtp, hd, hmx, hs]

/-- Claim C3, witness: a concrete session that fails to connect. -/
theorem c3_exception_caught_witness :
    verify_email_smtp (fun _ => ["mx.w.x"]) (fun _ _ => Except.error "Connection failed")
        "w@x.y" none =
      Except.ok { email := "w@x.y", valid := some false, catch_all := false,
                  error := some "Connection failed" } :=
  c3_exception_caught_amended _ _ "w@x.y" none "x.y".data "mx.w.x" "Connection failed"
    (by decide) (by decide) rfl

/-- Claim C4, counterexample: for business name `Joe Smith Plumbing` at
`example.org`, the name-derived guesses use the name's last token
`plumbing`, so neither `joe.smith@example.org` nor `joesmith@example.org`
is ever generated. -/
theorem c4_joe_guesses_counterexample :
    "joe.smith@example.org" ∉ generate_email_guesses joeLead ∧
    "joesmith@example.org" ∉ generate_email_guesses joeLead := by
  decide

/-- Claim C4, amended: the guess list is exactly the seven role accounts
followed by `joe@example.org`, `joe.plumbing@example.org`,
`joeplumbing@example.org` (first token `joe`, last token `plumbing`), in
that order. -/
theorem c4_joe_guesses_amended :
    generate_email_guesses joeLead =
      ["info@example.org", "contact@example.org", "hello@example.org",
       "sales@example.org", "support@example.org", "admin@example.org",
       "office@example.org", "joe@example.org", "joe.plumbing@example.org",
       "joeplumbing@example.org"] := by
  decide

/-- Claim C5, counterexample: a mailto href whose stripped remainder is
`foo@bar.com junk` passes the `re.match` test (the grammar matches the
prefix `foo@bar.com` only), and the crawl adds the entire remaining
string — not an entire-string grammar match — to the email set. -/
theorem c5_mailto_exact_counterexample :
    "foo@bar.com junk" ∈ crawl_website_for_emails fetch5 hrefs5 "https://site5.example" ∧
    tryMatchAt none ("foo@bar.com junk").data ≠ some (("foo@bar.com junk").data, []) := by
  decide

/-- Claim C5, amended: the mailto handling adds the stripped remainder iff
the canonical address grammar matches a prefix of it (`re.match` anchors
at the start only, and the final `\b` lets the match stop before trailing
text), so every added string has a grammar match at its start but need not
be a grammar match in its entirety. -/
theorem c5_mailto_prefix_amended (hrefs : List String) (e : String)
    (he : e ∈ mailtoEmailsFromHrefs hrefs) :
    (tryMatchAt none e.data).isSome = true := by
  unfold mailtoEmailsFromHrefs at he
  rcases List.mem_filterMap.mp he with ⟨href, _, hf⟩
  have h := mailtoCandidate_matches href e hf
  unfold emailPatternMatch at h
  exact h

/-- Claim C5, witness: a concrete mailto href that is added. -/
theorem c5_mailto_prefix_witness :
    (tryMatchAt none ("a@b.co").data).isSome = true :=
  c5_mailto_prefix_amended ["mailto:a@b.co"] "a@b.co" (by decide)

/-- Claim C6, counterexample: for the single-token name `Bob`, the
name-derived template with an unresolvable last token is not omitted —
`str.format` substitutes the empty string, and the partially-substituted
form `bob.@example.org` is emitted. -/
theorem c6_placeholder_counterexample :
    (pySplitWs ("Bob").data).length = 1 ∧
    "bob.@example.org" ∈ generate_email_guesses bobLead := by
  decide

/-- Claim C6, amended: the Guesser's only filter keeps a formatted
candidate iff it contains no left-brace character and contains an `@`;
unresolvable tokens are substituted as empty strings rather than the
template being omitted, so a single-token name still emits the
name-derived forms (with the last token empty). -/
theorem c6_placeholder_amended (lead : Lead) (e : String)
    (he : e ∈ generate_email_guesses lead) :
    strContainsSub e "\x7b" = false ∧ strContainsSub e "@" = true := by
  simp only [generate_email_guesses] at he
  split at he
  · simp at he
  · split at he
    · simp at he
    · have h2 := (List.mem_filter.mp he).2
      simpa [Bool.and_eq_true, Bool.not_eq_true'] using h2

/-- Claim C6, witness: the emitted `bob.@example.org` indeed passes the
code's brace-and-at filter. -/
theorem c6_placeholder_witness :
    strContainsSub "bob.@example.org" "\x7b" = false ∧
    strContainsSub "bob.@example.org" "@" = true :=
  c6_placeholder_amended bobLead "bob.@example.org" (by decide)

/-- Claim C7, counterexample: the extractor returns matches in their
original case — `Foo@Bar.org` is returned as-is and differs from its
lowercase form (only the filter comparison lowercases). -/
theorem c7_lowercase_counterexample :
    "Foo@Bar.org" ∈ extract_emails_from_html "Foo@Bar.org" ∧
    lowerStr "Foo@Bar.org" ≠ "Foo@Bar.org" := by
  decide

/-- Claim C7, amended: every element of the extractor's returned set
passes the false-positive filter (its lowercase form contains none of the
filtered substrings); elements keep the case they had in the de-obfuscated
HTML and are not normalized to lowercase. -/
theorem c7_filter_pass_amended (html e : String)
    (he : e ∈ extract_emails_from_html html) :
    isFalsePositiveEmail e = false := by
  unfold extract_emails_from_html at he
  have h2 := (List.mem_filter.mp he).2
  simpa [Bool.not_eq_true'] using h2

/-- Claim C7, witness: the mixed-case element of the counterexample page
passes the filter. -/
theorem c7_filter_pass_witness :
    isFalsePositiveEmail "Foo@Bar.org" = false :=
  c7_filter_pass_amended "Foo@Bar.org" "Foo@Bar.org" (by decide)

/-- Claim C8: for every non-empty website, if every page fetch fails
(the fetcher returns an empty body everywhere), the crawl returns the
empty set without raising, and the page list it iterates has exactly 11
entries (homepage plus the ten fixed contact paths). -/
theorem c8_crawler_resilience (website : String) (fetch : String → String)
    (hrefsOf : String → List String)
    (hw : website ≠ "") (hf : ∀ u, fetch u = "") :
    crawl_website_for_emails fetch hrefsOf website = [] ∧
    (pages_to_check website).length = 11 := by
  constructor
  · unfold crawl_website_for_emails
    rw [foldl_crawlStep_const fetch hrefsOf hf]
    rfl
  · unfold pages_to_check normalize_website
    rw [if_neg hw]
    simp [CONTACT_PATHS]

/-- Claim C8, witness: a concrete site whose every fetch fails. -/
theorem c8_crawler_resilience_witness :
    crawl_website_for_emails (fun _ => "") (fun _ => []) "example.org" = [] ∧
    (pages_to_check "example.org").length = 11 :=
  c8_crawler_resilience "example.org" (fun _ => "") (fun _ => []) (by decide)
    (fun _ => rfl)

/-- Claim C9: an address harvested from a mailto link bypasses the
extractor's false-positive filter — for a page whose only address is the
mailto target `foo@example.com`, the crawl includes that address even
though the extractor excludes it from the same page's text. -/
theorem c9_mailto_bypasses_filter :
    "foo@example.com" ∈ crawl_website_for_emails fetch9 hrefs9 "https://site9.example" ∧
    "foo@example.com" ∉ extract_emails_from_html mailtoOnlyPage := by
  decide

/-- Claim C10: a lead whose non-empty `primary_email` contains no `@`
makes the verification worker raise (`email.split('@')[1]` fails), the
scheduler catches it and records status `error`, `verified_email = None`
and the error string on that lead, and the whole batch is still processed
(one output per input lead). -/
theorem c10_no_at_raises_scheduler_catches (get_mx : String → List String)
    (session : String → String → Except String Nat) (lead : Lead)
    (e : String) (leads : List Lead)
    (hp : lead.primary_email = some e) (hne : e ≠ "") (hat : '@' ∉ e.data)
    (hmem : lead ∈ leads) :
    process_lead get_mx session lead = Except.error "list index out of range" ∧
    { lead with verified_email := none, email_status := some "error",
                verification_error := some "list index out of range" } ∈
      verify_all_leads get_mx session leads ∧
    (verify_all_leads get_mx session leads).length = leads.length := by
  have hpl : process_lead get_mx session lead = Except.error "list index out of range" := by
    simp only [process_lead, hp]
    rw [if_neg hne, verify_raises_of_no_at get_mx session e hat]
  refine ⟨hpl, ?_, ?_⟩
  · unfold verify_all_leads
    refine List.mem_map.mpr ⟨lead, hmem, ?_⟩
    rw [hpl]
  · simp [verify_all_leads]

/-- Claim C10, witness: a concrete batch containing one `@`-less lead. -/
theorem c10_no_at_raises_witness :
    process_lead (fun _ => []) (fun _ _ => Except.ok 250) badLead =
        Except.error "list index out of range" ∧
    { badLead with verified_email := none, email_status := some "error",
                   verification_error := some "list index out of range" } ∈
      verify_all_leads (fun _ => []) (fun _ _ => Except.ok 250) [badLead] ∧
    (verify_all_leads (fun _ => []) (fun _ _ => Except.ok 250) [badLead]).length =
      ([badLead] : List Lead).length :=
  c10_no_at_raises_scheduler_catches _ _ badLead "bobexample.com" [badLead]
    rfl (by decide) (by decide) (by decide)
